import Mathlib

/-!
Verification of the ladderbot core (src/structs.py, src/ladder.py, src/challenge.py).

Shallow embedding conventions:
* discord users, members and guilds are modelled by their integer ids (Nat);
  identity resolution (bot.get_user and friends) is out of scope.
* datetime values are modelled as integer timestamps in seconds (Int);
  datetime.timedelta(weeks=1) is the constant 604800.
* Python sets of Challenge / Result values are modelled as lists carrying the
  set discipline through pySetAdd / pySetDiscard, which use the dataclass
  equality of the corresponding Python classes (pyEq below).
* Operations that in Python mutate cog state are modelled as functions from a
  GuildState to a GuildState paired with an optional error; an error value
  covers both user-facing refusal messages and uncaught Python exceptions
  (each such case is noted where it arises), and the state component carries
  whatever mutations happened before the exit point.
-/

namespace Ladderbot

/-- datetime.timedelta(weeks=1) in seconds; used by Player.is_active
(structs.py:32) and TIME_UNTIL_CHALLENGEABLE_AGAIN (challenge.py:13). -/
def week : Int := 604800

/-- structs.py:18-28, class Player: a user id together with the
last_active_date timestamp. -/
structure Player where
  user : Nat
  last_active_date : Int
deriving Repr, DecidableEq

/-- structs.py:24-25, Player.__eq__: equality by user id only. -/
def Player.pyEq (p q : Player) : Bool :=
  p.user == q.user

/-- structs.py:30-32, Player.is_active: last_active_date plus one week is
strictly later than now. -/
def Player.is_active (p : Player) (now : Int) : Bool :=
  p.last_active_date + week > now

/-- structs.py:48-56, class Challenge. -/
structure Challenge where
  challenger_player : Player
  challenged_player : Player
  issued_at : Int
deriving Repr, DecidableEq

/-- Dataclass equality of Challenge (order=True, all three fields compared;
the Player fields compare by user id via Player.__eq__). -/
def Challenge.pyEq (c d : Challenge) : Bool :=
  c.challenger_player.pyEq d.challenger_player &&
  c.challenged_player.pyEq d.challenged_player &&
  c.issued_at == d.issued_at

/-- structs.py:75-77, Challenge.is_match: true if the unordered pair of the
two given users equals the unordered (challenger, challenged) pair. -/
def Challenge.is_match (c : Challenge) (player1 player2 : Nat) : Bool :=
  (c.challenger_player.user == player1 && c.challenged_player.user == player2) ||
  (c.challenger_player.user == player2 && c.challenged_player.user == player1)

/-- structs.py:142-151, class ResultPlayer. The Python characters field is a
set of strings; it is modelled as a list of strings (the set invariant is
that the list has no duplicates). -/
structure ResultPlayer where
  user : Nat
  characters : List String
  score : Int
deriving Repr, DecidableEq

/-- Dataclass equality of ResultPlayer: user and score are compared,
characters has compare=False (structs.py:147). -/
def ResultPlayer.pyEq (a b : ResultPlayer) : Bool :=
  a.user == b.user && a.score == b.score

/-- structs.py:169-177, class Result (frozen dataclass). -/
structure Result where
  winner : ResultPlayer
  loser : ResultPlayer
  completed_at : Int
  is_upset : Bool
  notes : String
deriving Repr, DecidableEq

/-- Dataclass equality of Result: winner, loser and completed_at are
compared; is_upset and notes have compare=False (structs.py:176-177). -/
def Result.pyEq (a b : Result) : Bool :=
  a.winner.pyEq b.winner && a.loser.pyEq b.loser && a.completed_at == b.completed_at

/-- structs.py:199-201, Result.is_match. -/
def Result.is_match (r : Result) (player1 player2 : Nat) : Bool :=
  (r.winner.user == player1 && r.loser.user == player2) ||
  (r.winner.user == player2 && r.loser.user == player1)

/-- structs.py:79-85, class Ladder. The guild and game tags play no role in
any claim and are omitted; players is the ordered ranking (index 0 = rank 1)
and is_frozen blocks mutating commands. -/
structure Ladder where
  players : List Player
  is_frozen : Bool
deriving Repr, DecidableEq

/-- Python list indexing semantics: nonnegative indexes read from the front,
negative indexes wrap from the back, out-of-range gives IndexError (none). -/
def pyGet (l : List Player) (k : Int) : Option Player :=
  if 0 ≤ k then l[k.toNat]?
  else if 0 ≤ k + l.length then l[(k + l.length).toNat]?
  else none

/-- Python list.index restricted to a Bool predicate: the first index whose
element satisfies the predicate, none when no element does (ValueError). -/
def pyIndex (pred : Player → Bool) : List Player → Option Nat
  | [] => none
  | a :: t => if pred a then some 0 else (pyIndex pred t).map (· + 1)

/-- structs.py:99-108: the reach quota number_of_challengeable_players as a
function of the challenger index. -/
def numberOfChallengeablePlayers (index : Nat) : Nat :=
  if index = 0 then 0
  else if index ≤ 3 then 1
  else if index ≤ 7 then 2
  else if index ≤ 15 then 3
  else 4

/-- structs.py:112-121, the for-loop of challengeable_players. The fuel
argument is the remaining iteration count of range(number_of_challengeable_players),
i the current loop variable, count the running number_of_active_players_found
and acc the players list built so far. An IndexError from the list access
terminates the loop (the except branch at structs.py:115-116). -/
def challengeWalkAux (players : List Player) (now : Int) (challenger_index quota : Nat) :
    Nat → Nat → Nat → List Player → List Player
  | 0, _, _, acc => acc
  | fuel + 1, i, count, acc =>
    match pyGet players ((challenger_index : Int) - i - 1) with
    | none => acc
    | some player =>
      let count1 := if player.is_active now then count + 1 else count
      let acc1 := acc ++ [player]
      if count1 = quota then acc1
      else challengeWalkAux players now challenger_index quota fuel (i + 1) count1 acc1

/-- structs.py:91-122, Ladder.challengeable_players. Returns none when the
challenger is not in the players list (list.index raises ValueError). -/
def Ladder.challengeable_players (l : Ladder) (challenger : Player) (now : Int) :
    Option (List Player) :=
  match pyIndex (fun p => p.pyEq challenger) l.players with
  | none => none
  | some index =>
    let quota := numberOfChallengeablePlayers index
    some (challengeWalkAux l.players now index quota quota 0 0 [])

/-- Python set membership for a list modelling a set, under the given
dataclass equality. -/
def pySetMem (eq : α → α → Bool) (x : α) (l : List α) : Bool :=
  l.any (fun y => eq x y)

/-- Python set.add: a no-op when an equal element is already present (the
old element is kept), otherwise the element is inserted. -/
def pySetAdd (eq : α → α → Bool) (l : List α) (x : α) : List α :=
  if pySetMem eq x l then l else l ++ [x]

/-- Python set.discard: removes the element equal to x when present. -/
def pySetDiscard (eq : α → α → Bool) (l : List α) (x : α) : List α :=
  l.filter (fun y => !(eq y x))

/-- Python list.remove: removes the first element satisfying the predicate. -/
def pyListRemoveFirst (pred : α → Bool) : List α → List α
  | [] => []
  | a :: t => if pred a then t else a :: pyListRemoveFirst pred t

/-- The per-guild state held by the two cogs: LadderCog.ladders[guild]
(ladder.py:19), ChallengeCog.challenges[guild] and
ChallengeCog.results[guild] (challenge.py:130-131). The claims under
verification all presuppose that the guild has a ladder and has entries in
the challenges and results maps, so those existence checks are modelled as
passing. -/
structure GuildState where
  ladder : Ladder
  challenges : List Challenge
  results : List Result
deriving Repr, DecidableEq

/-- The user-facing refusals and uncaught Python exceptions an operation can
exit with. -/
inductive Err where
  | notInLadder
  | frozen
  | alreadyJoined
  | cooldown
  | alreadyChallenging
  | noChallengeable
  | targetNotInLadder
  | notFound
  | alreadyResolved
  | attributeError
  | valueError
deriving Repr, DecidableEq

/-- ladder.py:44-60, LadderCog.join: after the exists and frozen guards, a
Player stamped now is appended to the players list unless a player with the
same user id is already present. -/
def LadderCog.join (s : GuildState) (userId : Nat) (now : Int) : GuildState × Option Err :=
  if s.ladder.is_frozen then (s, some .frozen)
  else
    let player : Player := ⟨userId, now⟩
    if s.ladder.players.any (fun p => p.pyEq player) then (s, some .alreadyJoined)
    else ({ s with ladder := { s.ladder with players := s.ladder.players ++ [player] } }, none)

/-- ladder.py:62-84, LadderCog.leave: removes the first player with the
caller id, then drops every open challenge involving the caller. -/
def LadderCog.leave (s : GuildState) (userId : Nat) : GuildState × Option Err :=
  if s.ladder.is_frozen then (s, some .frozen)
  else if !(s.ladder.players.any (fun p => p.user == userId)) then (s, some .notInLadder)
  else
    let players1 := pyListRemoveFirst (fun p => p.user == userId) s.ladder.players
    let challenges1 := s.challenges.filter
      (fun c => !(c.challenger_player.user == userId || c.challenged_player.user == userId))
    ({ ladder := { s.ladder with players := players1 },
       challenges := challenges1, results := s.results }, none)

/-- challenge.py:147-163, ChallengeCog.cancel: caller-in-ladder and frozen
guards, then the first challenge matching the unordered pair is discarded. -/
def ChallengeCog.cancel (s : GuildState) (callerId versus : Nat) : GuildState × Option Err :=
  if !(s.ladder.players.any (fun p => p.user == callerId)) then (s, some .notInLadder)
  else if s.ladder.is_frozen then (s, some .frozen)
  else
    match s.challenges.find? (fun c => c.is_match callerId versus) with
    | none => (s, some .notFound)
    | some challenge =>
      ({ s with challenges := pySetDiscard Challenge.pyEq s.challenges challenge }, none)

/-- challenge.py:175-204, ChallengeCog.undo. The body first runs
verify_user_in_ladder (challenge.py:178) and then evaluates
self.verify_ladder_is_not_frozen(interaction) (challenge.py:180) — but
ChallengeCog defines no method of that name (the working call sites go
through self.bot.get_cog("ladder")), so the attribute lookup raises
AttributeError before any state is touched. The function therefore always
exits with an error and an unchanged state. -/
def ChallengeCog.undo (s : GuildState) (callerId winnerId loserId : Nat) :
    GuildState × Option Err :=
  if !(s.ladder.players.any (fun p => p.user == callerId)) then (s, some .notInLadder)
  else
    let _ := winnerId
    let _ := loserId
    (s, some .attributeError)

/-- challenge.py:272-289, ChallengeCog.create_and_send_challenge. Note the
recent-results guard at challenge.py:279 filters only by
completed_at + 1 week > now, with no is_match restriction to the pair at
hand. On success the new challenge is added and the challenger (an alias
into the players list, challenge.py:286) gets last_active_date = now. -/
def ChallengeCog.create_and_send_challenge (s : GuildState)
    (challenger_player challenged_player : Player) (now : Int) : GuildState × Option Err :=
  if s.ladder.is_frozen then (s, some .frozen)
  else if s.challenges.any
      (fun c => c.is_match challenger_player.user challenged_player.user) then
    (s, some .alreadyChallenging)
  else if s.results.any (fun r => r.completed_at + week > now) then
    (s, some .cooldown)
  else
    let challengerStamped : Player := { challenger_player with last_active_date := now }
    let challenge : Challenge := ⟨challengerStamped, challenged_player, now⟩
    let challenges1 := pySetAdd Challenge.pyEq s.challenges challenge
    let players1 := s.ladder.players.map
      (fun p => if p.pyEq challenger_player then challengerStamped else p)
    ({ ladder := { s.ladder with players := players1 },
       challenges := challenges1, results := s.results }, none)

/-- challenge.py:240-270, ChallengeCog.send_challenge with an explicit target
user (the user is None branch opens a select menu and is presentation-only).
Guards in source order: caller in ladder, frozen, pair cooldown
(challenge.py:249, with is_match), existing pair challenge, nonempty
challengeable list, target in ladder; then create_and_send_challenge. -/
def ChallengeCog.send_challenge (s : GuildState) (callerId targetId : Nat) (now : Int) :
    GuildState × Option Err :=
  if !(s.ladder.players.any (fun p => p.user == callerId)) then (s, some .notInLadder)
  else if s.ladder.is_frozen then (s, some .frozen)
  else if s.results.any
      (fun r => r.is_match callerId targetId && r.completed_at + week > now) then
    (s, some .cooldown)
  else if s.challenges.any (fun c => c.is_match callerId targetId) then
    (s, some .alreadyChallenging)
  else
    match s.ladder.players.find? (fun p => p.user == callerId) with
    | none => (s, some .notInLadder)
    | some challenger_player =>
      match s.ladder.challengeable_players challenger_player now with
      | none => (s, some .valueError)
      | some challengeable =>
        if challengeable.length = 0 then (s, some .noChallengeable)
        else
          match s.ladder.players.find? (fun p => p.user == targetId) with
          | none => (s, some .targetNotInLadder)
          | some challenged_player =>
            ChallengeCog.create_and_send_challenge s challenger_player challenged_player now

/-- challenge.py:398-403, ChallengeCog.str_to_scores: a 3-character score
string digit-hyphen-digit becomes the pair of digit values; anything else
raises ValueError (none). A string shorter than 2 characters would raise
IndexError in Python; that case is also modelled as none. -/
def str_to_scores (score : String) : Option (Int × Int) :=
  match score.toList with
  | c0 :: c1 :: c2 :: _ =>
    if c0.isDigit && (c1 == '-') && c2.isDigit then
      some ((c0.toNat : Int) - 48, (c2.toNat : Int) - 48)
    else none
  | _ => none

/-- The data a successful report hands to the confirmation stage: the pending
Result built at challenge.py:330 and the open Challenge found at
challenge.py:300 (none on the edit path). -/
structure PendingReport where
  result : Result
  challenge : Option Challenge
deriving Repr, DecidableEq

/-- challenge.py:291-335, ChallengeCog.report_challenge. The function itself
mutates no cog state: the ladder, challenge and result collections are only
read; every mutation happens in complete_challenge. Its trailing
auto-confirm call (challenge.py:335) omits the required is_edit argument and
raises TypeError, so it too has no state effect; the function is therefore
embedded as a pure computation of the pending report.

Path notes, in source order: frozen guard (challenge.py:293); for edit look
up an existing Result, otherwise an open Challenge, by unordered pair
(challenge.py:296-301); not-found guard (challenge.py:302); the notes
fallback of challenge.py:307; str_to_scores (challenge.py:318-319, ValueError
on a malformed score); on the edit path is_upset comes from the stored
result via the parity formula of challenge.py:326-327 (AttributeError when
the second lookup finds nothing), on the report path from comparing the
current ladder indexes of winner and loser (challenge.py:329; list.index on
a missing player raises ValueError). -/
def ChallengeCog.report_challenge (s : GuildState) (winnerId loserId : Nat)
    (score : String) (notes : Option String) (is_edit : Bool) (now : Int) :
    Except Err PendingReport :=
  if s.ladder.is_frozen then .error .frozen
  else
    let result0 : Option Result :=
      if is_edit then s.results.find? (fun r => r.is_match winnerId loserId) else none
    let challenge0 : Option Challenge :=
      if is_edit then none else s.challenges.find? (fun c => c.is_match winnerId loserId)
    if result0.isNone && challenge0.isNone then .error .notFound
    else
      let notes1 : Option String :=
        match notes, result0 with
        | none, some r => some r.notes
        | n, _ => n
      match str_to_scores score with
      | none => .error .valueError
      | some (winnerScore, loserScore) =>
        let winner_player_results : ResultPlayer := ⟨winnerId, [], winnerScore⟩
        let loser_player_results : ResultPlayer := ⟨loserId, [], loserScore⟩
        if is_edit then
          match s.results.find? (fun r => r.is_match winnerId loserId) with
          | none => .error .attributeError
          | some existing_result =>
            let is_same_winner := existing_result.winner.user == winnerId
            let is_upset :=
              (is_same_winner && existing_result.is_upset) ||
              (!is_same_winner && !existing_result.is_upset)
            .ok ⟨⟨winner_player_results, loser_player_results, now, is_upset,
                  notes1.getD ""⟩, challenge0⟩
        else
          match s.ladder.players.find? (fun p => p.user == winnerId),
                s.ladder.players.find? (fun p => p.user == loserId) with
          | some winner_player, some loser_player =>
            match pyIndex (fun p => p.pyEq winner_player) s.ladder.players,
                  pyIndex (fun p => p.pyEq loser_player) s.ladder.players with
            | some wi, some li =>
              let is_upset := decide (wi > li)
              .ok ⟨⟨winner_player_results, loser_player_results, now, is_upset,
                    notes1.getD ""⟩, challenge0⟩
            | _, _ => .error .valueError
          | _, _ => .error .valueError

/-- challenge.py:165-168, the report command: notes defaults to the empty
string and is always passed as a string. -/
def ChallengeCog.report (s : GuildState) (winnerId loserId : Nat)
    (score : String) (notes : String) (now : Int) : Except Err PendingReport :=
  ChallengeCog.report_challenge s winnerId loserId score (some notes) false now

/-- challenge.py:170-173, the edit command: an empty notes argument is passed
on as None. -/
def ChallengeCog.edit (s : GuildState) (winnerId loserId : Nat)
    (score : String) (notes : String) (now : Int) : Except Err PendingReport :=
  ChallengeCog.report_challenge s winnerId loserId score
    (if notes == "" then none else some notes) true now

/-- challenge.py:373, the list comprehension rewriting ladder.players so the
two updated player objects replace their stale copies (matching by the
id-based Player equality). -/
def substituteUpdated (p1 p2 : Player) (l : List Player) : List Player :=
  l.map (fun p => if p.pyEq p1 then p1 else if p.pyEq p2 then p2 else p)

/-- challenge.py:337-384, ChallengeCog.complete_challenge.

Path notes, in source order: frozen guard (challenge.py:339); the
already-resolved guard (challenge.py:341: a non-edit completion whose
challenge is no longer in the open set — in particular challenge None — only
edits the message); player1/player2 are the challenge participants, or on
the challenge-less path the ladder entries matching the result winner and
loser (challenge.py:346-351, a miss makes the attribute assignment at
challenge.py:353 raise AttributeError); both get last_active_date = now
(challenge.py:353-354, by mutation of objects aliased into the players
list, realised here at the substitution step of challenge.py:373);
lower_position and higher_position come from list.index (challenge.py:
356-357, ValueError when a participant is missing from the ladder); the swap
runs when result.is_upset or the winner is the original challenger
(challenge.py:358-362) and writes player2 into lower_position and player1
into higher_position; then the substitution of challenge.py:373, the
challenge discard (challenge.py:377, a no-op for challenge None), the result
discard (challenge.py:379), and on the edit path the extra discard of
challenge.py:380-382 — whose generator variable shadows the outer result, so
its predicate is trivially true and the first element of the stored result
set is discarded; finally the result is added (challenge.py:383). -/
def ChallengeCog.complete_challenge (s : GuildState) (challenge : Option Challenge)
    (result : Result) (is_edit : Bool) (now : Int) : GuildState × Option Err :=
  if s.ladder.is_frozen then (s, some .frozen)
  else if !is_edit &&
      !(match challenge with
        | some ch => pySetMem Challenge.pyEq ch s.challenges
        | none => false) then
    (s, some .alreadyResolved)
  else
    let found : Option (Player × Player) :=
      match challenge with
      | some ch => some (ch.challenger_player, ch.challenged_player)
      | none =>
        match s.ladder.players.find? (fun p => p.user == result.winner.user),
              s.ladder.players.find? (fun p => p.user == result.loser.user) with
        | some a, some b => some (a, b)
        | _, _ => none
    match found with
    | none => (s, some .attributeError)
    | some (player1, player2) =>
      let player1u : Player := { player1 with last_active_date := now }
      let player2u : Player := { player2 with last_active_date := now }
      match pyIndex (fun p => p.pyEq player1) s.ladder.players,
            pyIndex (fun p => p.pyEq player2) s.ladder.players with
      | some i1, some i2 =>
        let lower_position := max i1 i2
        let higher_position := min i1 i2
        let doSwap := result.is_upset ||
          (match challenge with
           | some ch => result.winner.user == ch.challenger_player.user
           | none => false)
        let players1 :=
          if doSwap then
            (s.ladder.players.set lower_position player2u).set higher_position player1u
          else s.ladder.players
        let players2 := substituteUpdated player1u player2u players1
        let challenges1 :=
          match challenge with
          | some ch => pySetDiscard Challenge.pyEq s.challenges ch
          | none => s.challenges
        let results1 := pySetDiscard Result.pyEq s.results result
        let results2 :=
          if is_edit then
            match results1.head? with
            | some firstStored => pySetDiscard Result.pyEq results1 firstStored
            | none => results1
          else results1
        let results3 := pySetAdd Result.pyEq results2 result
        ({ ladder := { s.ladder with players := players2 },
           challenges := challenges1, results := results3 }, none)
      | _, _ => (s, some .valueError)

/-- The JSON dictionary shape produced by Player.to_json (structs.py:34-39). -/
structure PlayerJson where
  user_id : Nat
  last_active_date : Int
deriving Repr, DecidableEq

/-- structs.py:34-39, Player.to_json. -/
def Player.to_json (p : Player) : PlayerJson :=
  ⟨p.user, p.last_active_date⟩

/-- structs.py:41-46, Player.from_json. bot.get_user resolves the stored id
to the member carrying that id; identity resolution side effects are out of
scope, so the member is modelled by the id itself. -/
def Player.from_json (j : PlayerJson) : Player :=
  ⟨j.user_id, j.last_active_date⟩

/-- The JSON dictionary shape produced by Challenge.to_json
(structs.py:58-64). -/
structure ChallengeJson where
  challenger_player : PlayerJson
  challenged_player : PlayerJson
  issued_at : Int
deriving Repr, DecidableEq

/-- structs.py:58-64, Challenge.to_json. -/
def Challenge.to_json (c : Challenge) : ChallengeJson :=
  ⟨c.challenger_player.to_json, c.challenged_player.to_json, c.issued_at⟩

/-- structs.py:66-73, Challenge.from_json. -/
def Challenge.from_json (j : ChallengeJson) : Challenge :=
  ⟨Player.from_json j.challenger_player, Player.from_json j.challenged_player, j.issued_at⟩

/-- The JSON dictionary shape produced by ResultPlayer.to_json
(structs.py:153-159): the characters set is serialized as a list. -/
structure ResultPlayerJson where
  user_id : Nat
  characters : List String
  score : Int
deriving Repr, DecidableEq

/-- structs.py:153-159, ResultPlayer.to_json: the list comprehension over
the characters set is the identity on the list model. -/
def ResultPlayer.to_json (rp : ResultPlayer) : ResultPlayerJson :=
  ⟨rp.user, rp.characters, rp.score⟩

/-- structs.py:161-167, ResultPlayer.from_json: set(...) over the stored
characters list is modelled as deduplication of the list. -/
def ResultPlayer.from_json (j : ResultPlayerJson) : ResultPlayer :=
  ⟨j.user_id, j.characters.dedup, j.score⟩

/-- The JSON dictionary shape produced by Result.to_json
(structs.py:179-187). -/
structure ResultJson where
  winner : ResultPlayerJson
  loser : ResultPlayerJson
  completed_at : Int
  is_upset : Bool
  notes : String
deriving Repr, DecidableEq

/-- structs.py:179-187, Result.to_json. -/
def Result.to_json (r : Result) : ResultJson :=
  ⟨r.winner.to_json, r.loser.to_json, r.completed_at, r.is_upset, r.notes⟩

/-- structs.py:189-197, Result.from_json. -/
def Result.from_json (j : ResultJson) : Result :=
  ⟨ResultPlayer.from_json j.winner, ResultPlayer.from_json j.loser,
   j.completed_at, j.is_upset, j.notes⟩

/-! Helper lemmas shared by the claim theorems. -/

/-- pyGet at a nonnegative index is plain list lookup. -/
lemma pyGet_nonneg (l : List Player) (k : Int) (h : 0 ≤ k) :
    pyGet l k = l[k.toNat]? := by
  simp [pyGet, h]

/-- pyIndex returns the first matching index: everything strictly before it
fails the predicate. -/
lemma pyIndex_first (pred : Player → Bool) :
    ∀ (l : List Player) (i : Nat), pyIndex pred l = some i →
      ∀ k x, k < i → l[k]? = some x → pred x = false := by
  intro l
  induction l with
  | nil => intro i h; simp [pyIndex] at h
  | cons a t ih =>
    intro i h k x hk hx
    by_cases ha : pred a
    · simp [pyIndex, ha] at h
      omega
    · simp [pyIndex, ha] at h
      obtain ⟨j, hj, hji⟩ := h
      match k with
      | 0 =>
        simp at hx
        exact hx ▸ (Bool.not_eq_true _ ▸ ha)
      | k + 1 =>
        simp at hx
        exact ih j hj k x (by omega) hx

/-- Every element the loop of challengeable_players adds beyond the incoming
accumulator sits at a ladder index strictly below the challenger index,
provided the quota does not exceed that index. -/
lemma challengeWalkAux_mem (players : List Player) (now : Int) (idx quota : Nat) :
    ∀ fuel i count acc, i + fuel ≤ quota → quota ≤ idx →
      ∀ p, p ∈ challengeWalkAux players now idx quota fuel i count acc →
        p ∈ acc ∨ ∃ k, k < idx ∧ players[k]? = some p := by
  intro fuel
  induction fuel with
  | zero =>
    intro i count acc _ _ p hp
    exact Or.inl (by simpa [challengeWalkAux] using hp)
  | succ fuel ih =>
    intro i count acc hle hqi p hp
    have hidx : i + 1 ≤ idx := by omega
    have hk0 : (0 : Int) ≤ (idx : Int) - i - 1 := by omega
    rw [challengeWalkAux] at hp
    rcases hg : pyGet players ((idx : Int) - i - 1) with _ | player
    · rw [hg] at hp
      exact Or.inl hp
    · rw [hg] at hp
      have hplayer : ∃ k, k < idx ∧ players[k]? = some player := by
        refine ⟨idx - i - 1, by omega, ?_⟩
        rw [pyGet_nonneg _ _ hk0] at hg
        have ht : ((idx : Int) - i - 1).toNat = idx - i - 1 := by omega
        rwa [ht] at hg
    -- the loop either breaks after appending player or recurses on the
    -- extended accumulator
      simp only at hp
      by_cases hc : (if player.is_active now then count + 1 else count) = quota
      · rw [if_pos hc] at hp
        rcases List.mem_append.mp hp with h | h
        · exact Or.inl h
        · simp at h
          exact Or.inr (h ▸ hplayer)
      · rw [if_neg hc] at hp
        rcases ih (i + 1) _ (acc ++ [player]) (by omega) hqi p hp with h | h
        · rcases List.mem_append.mp h with h | h
          · exact Or.inl h
          · simp at h
            exact Or.inr (h ▸ hplayer)
        · exact Or.inr h

/-- The reach quota never exceeds the challenger index. -/
lemma numberOfChallengeablePlayers_le (n : Nat) : numberOfChallengeablePlayers n ≤ n := by
  unfold numberOfChallengeablePlayers
  split_ifs <;> omega

/-- The substitution step of challenge.py:373 replaces each player with one
carrying the same user id, so the id sequence of the ladder is unchanged. -/
lemma substituteUpdated_users (p1 p2 : Player) (l : List Player) :
    (substituteUpdated p1 p2 l).map (fun p => p.user) = l.map (fun p => p.user) := by
  induction l with
  | nil => rfl
  | cons a t ih =>
    simp only [substituteUpdated, List.map_cons] at ih ⊢
    refine congrArg₂ _ ?_ ih
    unfold Player.pyEq
    split_ifs with h1 h2
    · exact (beq_iff_eq.mp h1).symm
    · exact (beq_iff_eq.mp h2).symm
    · rfl

/-- The xor-free parity formula of challenge.py:327 equals Bool equality. -/
lemma bool_parity : ∀ a b : Bool, ((a && b) || (!a && !b)) = (a == b) := by decide

/-! Claim theorems. -/

/-- Claim C1. The claim states that the walk of challengeable_players
continues past inactive players until the reach quota of ACTIVE players has
been collected, so that an active player separated from the challenger only
by inactive players is always included. The code (structs.py:112-121)
contradicts this and its own docstring (structs.py:97): the for-loop runs at
most number_of_challengeable_players iterations in total, so the walk never
extends beyond reach positions regardless of activity — the
number_of_active_players_found counter is dead code. Evaluation at the
failing input: a three-player ladder whose middle player is inactive and
whose top player is active; the rank-3 challenger (reach 1) receives only
the inactive middle player, not the active player beyond it. -/
theorem c1_walk_stops_at_reach_despite_inactive :
    Ladder.challengeable_players ⟨[⟨0, 500000⟩, ⟨1, 0⟩, ⟨2, 500000⟩], false⟩
        ⟨2, 500000⟩ 1000000 = some [⟨1, 0⟩] ∧
    Player.is_active ⟨0, 500000⟩ 1000000 = true ∧
    Player.is_active ⟨1, 0⟩ 1000000 = false ∧
    (⟨0, 500000⟩ : Player) ∉ [(⟨1, 0⟩ : Player)] := by
  decide

/-- Claim C3. The claim states that send fails with Cooldown iff a recent
Result exists between the specific pair, and that a recent Result between
two other players never blocks the send. send_challenge itself checks the
pair (challenge.py:249), but it then calls create_and_send_challenge, whose
recency filter (challenge.py:279) has no is_match restriction, so ANY recent
result in the guild blocks the send — contradicting the pair-specific
wording of its own user-facing message. Evaluation at the failing input:
caller 0 challenges player 1; the only stored result is a fresh one between
players 2 and 3; the send is refused with Cooldown and the state is
unchanged. -/
theorem c3_unrelated_recent_result_blocks_send :
    ChallengeCog.send_challenge
        ⟨⟨[⟨1, 999900⟩, ⟨0, 999900⟩, ⟨2, 999900⟩, ⟨3, 999900⟩], false⟩, [],
         [⟨⟨2, [], 3⟩, ⟨3, [], 0⟩, 999900, false, ""⟩]⟩ 0 1 1000000 =
      (⟨⟨[⟨1, 999900⟩, ⟨0, 999900⟩, ⟨2, 999900⟩, ⟨3, 999900⟩], false⟩, [],
        [⟨⟨2, [], 3⟩, ⟨3, [], 0⟩, 999900, false, ""⟩]⟩, some Err.cooldown) ∧
    ([⟨⟨2, [], 3⟩, ⟨3, [], 0⟩, 999900, false, ""⟩] : List Result).all
        (fun r => !(r.is_match 0 1)) = true := by
  decide

/-- Claim C4. The claim states that undo removes the confirmed Result and,
for an upset, swaps the two players back. The code cannot do either:
challenge.py:180 calls self.verify_ladder_is_not_frozen on ChallengeCog,
which defines no such method (the working call sites use the ladder cog), so
every undo invocation raises AttributeError before touching any state.
Evaluation at the failing input: an unfrozen two-player ladder holding a
confirmed upset Result; undo leaves the whole state — including the result
set — unchanged and exits with the AttributeError. -/
theorem c4_undo_always_raises_attribute_error :
    ChallengeCog.undo
        ⟨⟨[⟨0, 0⟩, ⟨1, 0⟩], false⟩, [], [⟨⟨1, [], 3⟩, ⟨0, [], 1⟩, 0, true, ""⟩]⟩ 1 1 0 =
      (⟨⟨[⟨0, 0⟩, ⟨1, 0⟩], false⟩, [], [⟨⟨1, [], 3⟩, ⟨0, [], 1⟩, 0, true, ""⟩]⟩,
       some Err.attributeError) := by
  decide

/-- Claim C5 (supporting theorem). Once a manual confirm has completed a
challenge — i.e. the challenge is no longer in the open-challenge set — a
later complete_challenge invocation for the same challenge with
is_edit = false is a no-op on the guild state: the already-resolved guard of
challenge.py:341 fires (or the frozen guard before it), and only the message
is edited. The scheduled auto-confirm itself never reaches this guard in the
shipped code, because its call site (challenge.py:335) omits the required
is_edit argument and raises TypeError. -/
theorem c5_completed_challenge_makes_second_confirm_noop
    (s : GuildState) (ch : Challenge) (r : Result) (now : Int)
    (h : pySetMem Challenge.pyEq ch s.challenges = false) :
    (ChallengeCog.complete_challenge s (some ch) r false now).1 = s := by
  unfold ChallengeCog.complete_challenge
  cases hf : s.ladder.is_frozen <;> simp [hf, h]

/-- Witness for the C5 theorem at a concrete state: one open challenge
between players 0 and 1 was already confirmed and removed, and a second
completion attempt leaves the state untouched. -/
theorem c5_completed_challenge_makes_second_confirm_noop_witness :
    (ChallengeCog.complete_challenge
        ⟨⟨[⟨0, 0⟩, ⟨1, 0⟩], false⟩, [], [⟨⟨1, [], 3⟩, ⟨0, [], 1⟩, 0, true, ""⟩]⟩
        (some ⟨⟨1, 0⟩, ⟨0, 0⟩, 0⟩) ⟨⟨1, [], 3⟩, ⟨0, [], 1⟩, 0, true, ""⟩ false 5).1 =
      ⟨⟨[⟨0, 0⟩, ⟨1, 0⟩], false⟩, [], [⟨⟨1, [], 3⟩, ⟨0, [], 1⟩, 0, true, ""⟩]⟩ :=
  c5_completed_challenge_makes_second_confirm_noop _ _ _ _ (by decide)

/-- Claim C9. Deserializing the serialization round-trips field-wise for
Player, Challenge and Result (identity resolution is modelled as recovering
the member with the stored id). The characters fields of a Result are Python
sets serialized as lists, so the list model carries the no-duplicates set
invariant as a hypothesis. -/
theorem c9_to_json_from_json_round_trip (p : Player) (c : Challenge) (r : Result)
    (hw : r.winner.characters.Nodup) (hl : r.loser.characters.Nodup) :
    Player.from_json p.to_json = p ∧
    Challenge.from_json c.to_json = c ∧
    Result.from_json r.to_json = r := by
  refine ⟨rfl, rfl, ?_⟩
  obtain ⟨⟨wu, wc, ws⟩, ⟨lu, lc, ls⟩, ca, iu, nt⟩ := r
  simp only [Result.from_json, Result.to_json, ResultPlayer.from_json,
    ResultPlayer.to_json] at *
  rw [List.dedup_eq_self.mpr hw, List.dedup_eq_self.mpr hl]

/-- Witness for the C9 theorem at concrete values. -/
theorem c9_to_json_from_json_round_trip_witness :
    Player.from_json (Player.to_json ⟨7, 42⟩) = ⟨7, 42⟩ ∧
    Challenge.from_json (Challenge.to_json ⟨⟨7, 42⟩, ⟨8, 43⟩, 44⟩) = ⟨⟨7, 42⟩, ⟨8, 43⟩, 44⟩ ∧
    Result.from_json (Result.to_json ⟨⟨7, ["fox", "marth"], 3⟩, ⟨8, ["sheik"], 1⟩, 45, true, "gg"⟩) =
      ⟨⟨7, ["fox", "marth"], 3⟩, ⟨8, ["sheik"], 1⟩, 45, true, "gg"⟩ :=
  c9_to_json_from_json_round_trip _ _ _ (by decide) (by decide)

/-- Claim C10. On an unfrozen ladder that does not already contain the
joining user, join appends the new player at the bottom and leaves every
existing player in place (ladder.py:52-55). -/
theorem c10_join_appends_at_bottom (s : GuildState) (u : Nat) (now : Int)
    (hf : s.ladder.is_frozen = false)
    (hnm : ∀ p ∈ s.ladder.players, p.user ≠ u) :
    LadderCog.join s u now =
      ({ s with ladder := { s.ladder with players := s.ladder.players ++ [⟨u, now⟩] } },
       none) := by
  have hany : s.ladder.players.any (fun p => p.pyEq ⟨u, now⟩) = false := by
    rw [List.any_eq_false]
    intro p hp
    simp [Player.pyEq]
    exact hnm p hp
  unfold LadderCog.join
  simp [hf, hany]

/-- Witness for the C10 theorem: player 5 joins a one-player unfrozen
ladder and lands at the bottom. -/
theorem c10_join_appends_at_bottom_witness :
    LadderCog.join ⟨⟨[⟨0, 3⟩], false⟩, [], []⟩ 5 9 =
      (⟨⟨[⟨0, 3⟩, ⟨5, 9⟩], false⟩, [], []⟩, none) :=
  c10_join_appends_at_bottom _ _ _ (by decide) (by decide)

/-- Claim C8. For a challenger that is a member of the ladder (so list.index
yields its first index idx), every player returned by challengeable_players
sits at a ladder index in [0, idx-1], none of them equals the challenger
(Python membership equality, i.e. by user id), and the player at index 0
receives the empty list. -/
theorem c8_challengeable_players_strictly_above (l : Ladder) (challenger : Player)
    (now : Int) (idx : Nat) (ps : List Player)
    (hidx : pyIndex (fun p => p.pyEq challenger) l.players = some idx)
    (hps : l.challengeable_players challenger now = some ps) :
    (∀ p ∈ ps, ∃ k, k < idx ∧ l.players[k]? = some p) ∧
    (∀ p ∈ ps, p.pyEq challenger = false) ∧
    (idx = 0 → ps = []) := by
  unfold Ladder.challengeable_players at hps
  rw [hidx] at hps
  simp only [Option.some.injEq] at hps
  have hmem : ∀ p ∈ ps, ∃ k, k < idx ∧ l.players[k]? = some p := by
    intro p hp
    rw [← hps] at hp
    rcases challengeWalkAux_mem l.players now idx (numberOfChallengeablePlayers idx)
        (numberOfChallengeablePlayers idx) 0 0 [] (by omega)
        (numberOfChallengeablePlayers_le idx) p hp with h | h
    · simp at h
    · exact h
  refine ⟨hmem, ?_, ?_⟩
  · intro p hp
    obtain ⟨k, hk, hkp⟩ := hmem p hp
    exact pyIndex_first _ _ _ hidx k p hk hkp
  · intro h0
    rw [h0] at hps
    simpa [numberOfChallengeablePlayers, challengeWalkAux] using hps.symm

/-- Witness for the C8 theorem: a two-player ladder whose rank-2 player can
reach exactly the rank-1 player, all inside index bounds. -/
theorem c8_challengeable_players_strictly_above_witness :
    (∀ p ∈ [(⟨0, 5⟩ : Player)], ∃ k, k < 1 ∧
        (⟨[⟨0, 5⟩, ⟨1, 5⟩], false⟩ : Ladder).players[k]? = some p) ∧
    (∀ p ∈ [(⟨0, 5⟩ : Player)], p.pyEq ⟨1, 5⟩ = false) ∧
    ((1 : Nat) = 0 → [(⟨0, 5⟩ : Player)] = []) :=
  c8_challengeable_players_strictly_above ⟨[⟨0, 5⟩, ⟨1, 5⟩], false⟩ ⟨1, 5⟩ 6 1 [⟨0, 5⟩]
    (by decide) (by decide)

/-- Claim C6. On a frozen ladder each of the eight operations join, leave,
send, cancel, report, edit, confirm (complete_challenge) and undo leaves the
guild state — in particular the player order, the open-challenge set and the
result set — unchanged. The first six stop at a guard; undo stops with the
AttributeError of challenge.py:180, also before any mutation. -/
theorem c6_frozen_ladder_blocks_all_operations (s : GuildState)
    (hf : s.ladder.is_frozen = true) (u v w l c : Nat) (score notes : String)
    (now : Int) (oc : Option Challenge) (r : Result) (ie : Bool) :
    (LadderCog.join s u now).1 = s ∧
    (LadderCog.leave s u).1 = s ∧
    (ChallengeCog.send_challenge s u v now).1 = s ∧
    (ChallengeCog.cancel s u v).1 = s ∧
    ChallengeCog.report s w l score notes now = .error .frozen ∧
    ChallengeCog.edit s w l score notes now = .error .frozen ∧
    (ChallengeCog.complete_challenge s oc r ie now).1 = s ∧
    (ChallengeCog.undo s c w l).1 = s := by
  refine ⟨?_, ?_, ?_, ?_, ?_, ?_, ?_, ?_⟩
  · simp [LadderCog.join, hf]
  · simp [LadderCog.leave, hf]
  · unfold ChallengeCog.send_challenge
    cases hm : s.ladder.players.any (fun p => p.user == u) <;> simp [hm, hf]
  · unfold ChallengeCog.cancel
    cases hm : s.ladder.players.any (fun p => p.user == u) <;> simp [hm, hf]
  · simp [ChallengeCog.report, ChallengeCog.report_challenge, hf]
  · simp [ChallengeCog.edit, ChallengeCog.report_challenge, hf]
  · simp [ChallengeCog.complete_challenge, hf]
  · unfold ChallengeCog.undo
    cases hm : s.ladder.players.any (fun p => p.user == c) <;> simp [hm]

/-- Witness for the C6 theorem at a concrete frozen state. -/
theorem c6_frozen_ladder_blocks_all_operations_witness :
    (LadderCog.join ⟨⟨[⟨0, 0⟩], true⟩, [], []⟩ 1 2).1 = ⟨⟨[⟨0, 0⟩], true⟩, [], []⟩ ∧
    (LadderCog.leave ⟨⟨[⟨0, 0⟩], true⟩, [], []⟩ 1).1 = ⟨⟨[⟨0, 0⟩], true⟩, [], []⟩ ∧
    (ChallengeCog.send_challenge ⟨⟨[⟨0, 0⟩], true⟩, [], []⟩ 1 2 2).1 =
      ⟨⟨[⟨0, 0⟩], true⟩, [], []⟩ ∧
    (ChallengeCog.cancel ⟨⟨[⟨0, 0⟩], true⟩, [], []⟩ 1 2).1 = ⟨⟨[⟨0, 0⟩], true⟩, [], []⟩ ∧
    ChallengeCog.report ⟨⟨[⟨0, 0⟩], true⟩, [], []⟩ 1 2 "3-0" "" 2 = .error .frozen ∧
    ChallengeCog.edit ⟨⟨[⟨0, 0⟩], true⟩, [], []⟩ 1 2 "3-0" "" 2 = .error .frozen ∧
    (ChallengeCog.complete_challenge ⟨⟨[⟨0, 0⟩], true⟩, [], []⟩ none
        ⟨⟨1, [], 3⟩, ⟨2, [], 0⟩, 0, false, ""⟩ false 2).1 = ⟨⟨[⟨0, 0⟩], true⟩, [], []⟩ ∧
    (ChallengeCog.undo ⟨⟨[⟨0, 0⟩], true⟩, [], []⟩ 0 1 2).1 = ⟨⟨[⟨0, 0⟩], true⟩, [], []⟩ :=
  c6_frozen_ladder_blocks_all_operations ⟨⟨[⟨0, 0⟩], true⟩, [], []⟩ (by decide)
    1 2 1 2 0 "3-0" "" 2 none ⟨⟨1, [], 3⟩, ⟨2, [], 0⟩, 0, false, ""⟩ false

/-- Counterexample to claim C2 as stated. State: ladder order [player 0,
player 2] with an open challenge in which player 2 challenges player 0, and
a completed result whose winner is player 2 with is_upset = false. Because
the swap condition of challenge.py:358 also fires when the winner is the
original challenger, confirming this non-upset result reorders the ladder
to [player 2, player 0]. -/
theorem c2_counterexample_nonupset_confirm_reorders :
    (⟨⟨2, [], 3⟩, ⟨0, [], 0⟩, 5, false, ""⟩ : Result).is_upset = false ∧
    (ChallengeCog.complete_challenge
        ⟨⟨[⟨0, 0⟩, ⟨2, 0⟩], false⟩, [⟨⟨2, 0⟩, ⟨0, 0⟩, 0⟩], []⟩
        (some ⟨⟨2, 0⟩, ⟨0, 0⟩, 0⟩) ⟨⟨2, [], 3⟩, ⟨0, [], 0⟩, 5, false, ""⟩
        false 10).1.ladder.players.map (fun p => p.user) ≠
      [(⟨0, 0⟩ : Player), ⟨2, 0⟩].map (fun p => p.user) := by
  decide

/-- Claim C2, amended. Confirming a result with is_upset = false leaves the
ladder order unchanged provided the winner is not the challenge's original
challenger (the swap condition of challenge.py:358 also covers that case);
and when the swap does fire on an upset (or challenger win), with the
challenger currently ranked below the challenged player, exactly the two
participants exchange positions: the resulting id order is the old order
with the challenged id written at the challenger index and the challenger
id at the challenged index. -/
theorem c2_confirm_order_effect (s : GuildState) (oc : Option Challenge) (ch : Challenge)
    (r : Result) (ie : Bool) (now : Int) (i j : Nat) :
    (r.is_upset = false →
     (∀ c, oc = some c → r.winner.user ≠ c.challenger_player.user) →
     (ChallengeCog.complete_challenge s oc r ie now).1.ladder.players.map (fun p => p.user)
       = s.ladder.players.map (fun p => p.user)) ∧
    (s.ladder.is_frozen = false →
     pySetMem Challenge.pyEq ch s.challenges = true →
     (r.is_upset = true ∨ r.winner.user = ch.challenger_player.user) →
     pyIndex (fun p => p.pyEq ch.challenger_player) s.ladder.players = some j →
     pyIndex (fun p => p.pyEq ch.challenged_player) s.ladder.players = some i →
     i < j →
     (ChallengeCog.complete_challenge s (some ch) r ie now).1.ladder.players.map (fun p => p.user)
       = ((s.ladder.players.map (fun p => p.user)).set j ch.challenged_player.user).set i
           ch.challenger_player.user) := by
  constructor
  · intro h1 h2
    unfold ChallengeCog.complete_challenge
    split
    · rfl
    · split
      · rfl
      · cases oc with
        | none =>
          cases hw : s.ladder.players.find? (fun p => p.user == r.winner.user) with
          | none => simp [hw]
          | some a =>
            cases hl : s.ladder.players.find? (fun p => p.user == r.loser.user) with
            | none => simp [hw, hl]
            | some b =>
              cases hj1 : pyIndex (fun p => p.pyEq a) s.ladder.players with
              | none => simp [hw, hl, hj1]
              | some i1 =>
                cases hj2 : pyIndex (fun p => p.pyEq b) s.ladder.players with
                | none => simp [hw, hl, hj1, hj2]
                | some i2 => simp [hw, hl, hj1, hj2, h1, substituteUpdated_users]
        | some c =>
          have hne : (r.winner.user == c.challenger_player.user) = false :=
            beq_eq_false_iff_ne.mpr (h2 c rfl)
          cases hj1 : pyIndex (fun p => p.pyEq c.challenger_player) s.ladder.players with
          | none => simp [hj1]
          | some i1 =>
            cases hj2 : pyIndex (fun p => p.pyEq c.challenged_player) s.ladder.players with
            | none => simp [hj1, hj2]
            | some i2 => simp [hj1, hj2, h1, hne, substituteUpdated_users]
  · intro hf hmem hup hj hi hij
    have hds : (r.is_upset || (r.winner.user == ch.challenger_player.user)) = true := by
      rcases hup with h | h
      · simp [h]
      · simp [h]
    have hmax : max j i = j := by omega
    have hmin : min j i = i := by omega
    unfold ChallengeCog.complete_challenge
    simp [hf, hmem, hj, hi, hds, hmax, hmin, substituteUpdated_users, List.map_set]

/-- Witness for the amended C2 theorem: the no-swap part at a state in which
the challenged player 0 beat the challenger 2 without upset, and the swap
part at a state in which the challenger 2 won an upset over player 0. -/
theorem c2_confirm_order_effect_witness :
    ((ChallengeCog.complete_challenge
        ⟨⟨[⟨0, 0⟩, ⟨2, 0⟩], false⟩, [⟨⟨2, 0⟩, ⟨0, 0⟩, 0⟩], []⟩
        (some ⟨⟨2, 0⟩, ⟨0, 0⟩, 0⟩) ⟨⟨0, [], 3⟩, ⟨2, [], 0⟩, 5, false, ""⟩
        false 10).1.ladder.players.map (fun p => p.user)
      = (⟨⟨[⟨0, 0⟩, ⟨2, 0⟩], false⟩, [⟨⟨2, 0⟩, ⟨0, 0⟩, 0⟩], []⟩ :
          GuildState).ladder.players.map (fun p => p.user)) ∧
    ((ChallengeCog.complete_challenge
        ⟨⟨[⟨0, 0⟩, ⟨2, 0⟩], false⟩, [⟨⟨2, 0⟩, ⟨0, 0⟩, 0⟩], []⟩
        (some ⟨⟨2, 0⟩, ⟨0, 0⟩, 0⟩) ⟨⟨2, [], 3⟩, ⟨0, [], 0⟩, 5, true, ""⟩
        false 10).1.ladder.players.map (fun p => p.user)
      = (((⟨⟨[⟨0, 0⟩, ⟨2, 0⟩], false⟩, [⟨⟨2, 0⟩, ⟨0, 0⟩, 0⟩], []⟩ :
            GuildState).ladder.players.map (fun p => p.user)).set 1
            (⟨⟨2, 0⟩, ⟨0, 0⟩, 0⟩ : Challenge).challenged_player.user).set 0
            (⟨⟨2, 0⟩, ⟨0, 0⟩, 0⟩ : Challenge).challenger_player.user) :=
  ⟨(c2_confirm_order_effect ⟨⟨[⟨0, 0⟩, ⟨2, 0⟩], false⟩, [⟨⟨2, 0⟩, ⟨0, 0⟩, 0⟩], []⟩
      (some ⟨⟨2, 0⟩, ⟨0, 0⟩, 0⟩) ⟨⟨2, 0⟩, ⟨0, 0⟩, 0⟩ ⟨⟨0, [], 3⟩, ⟨2, [], 0⟩, 5, false, ""⟩
      false 10 0 1).1 (by decide) (by intro c hc; cases hc; decide),
   (c2_confirm_order_effect ⟨⟨[⟨0, 0⟩, ⟨2, 0⟩], false⟩, [⟨⟨2, 0⟩, ⟨0, 0⟩, 0⟩], []⟩
      (some ⟨⟨2, 0⟩, ⟨0, 0⟩, 0⟩) ⟨⟨2, 0⟩, ⟨0, 0⟩, 0⟩ ⟨⟨2, [], 3⟩, ⟨0, [], 0⟩, 5, true, ""⟩
      false 10 0 1).2 (by decide) (by decide) (Or.inl (by decide)) (by decide) (by decide)
      (by decide)⟩

/-- Counterexample to claim C7 as stated. State: ladder order [player 1,
player 0] (after an earlier upset) with a stored Result in which player 1
beat player 0 as an upset. An edit re-reporting player 1 as winner derives
is_upset from the stored result parity (challenge.py:326-327), producing
true, although at report time the winner index 0 is NOT greater than the
loser index 1 — so for edit-based reports is_upset is not determined by the
current ladder order as the claim states. -/
theorem c7_counterexample_edit_ignores_current_order :
    ChallengeCog.report_challenge
        ⟨⟨[⟨1, 0⟩, ⟨0, 0⟩], false⟩, [], [⟨⟨1, [], 3⟩, ⟨0, [], 0⟩, 0, true, ""⟩]⟩
        1 0 "3-1" none true 7 =
      .ok ⟨⟨⟨1, [], 3⟩, ⟨0, [], 1⟩, 7, true, ""⟩, none⟩ ∧
    pyIndex (fun p => p.pyEq ⟨1, 0⟩) [⟨1, 0⟩, ⟨0, 0⟩] = some 0 ∧
    pyIndex (fun p => p.pyEq ⟨0, 0⟩) [⟨1, 0⟩, ⟨0, 0⟩] = some 1 :=
  ⟨rfl, rfl, rfl⟩

/-- Claim C7, amended. For a non-edit report the produced is_upset flag is
true iff the winner index in the current ladder order exceeds the loser
index (challenge.py:329); for an edit report it is instead true iff the new
winner coincides with the stored result winner exactly when the stored
result was an upset (the parity formula of challenge.py:326-327). -/
theorem c7_is_upset_computation (s : GuildState) (w l : Nat) (score : String)
    (notes : Option String) (now : Int) :
    (∀ ex pr, s.results.find? (fun r => r.is_match w l) = some ex →
       ChallengeCog.report_challenge s w l score notes true now = .ok pr →
       pr.result.is_upset = ((ex.winner.user == w) == ex.is_upset)) ∧
    (∀ wp lp wi li pr,
       s.ladder.players.find? (fun p => p.user == w) = some wp →
       s.ladder.players.find? (fun p => p.user == l) = some lp →
       pyIndex (fun p => p.pyEq wp) s.ladder.players = some wi →
       pyIndex (fun p => p.pyEq lp) s.ladder.players = some li →
       ChallengeCog.report_challenge s w l score notes false now = .ok pr →
       pr.result.is_upset = decide (wi > li)) := by
  constructor
  · intro ex pr hex hok
    unfold ChallengeCog.report_challenge at hok
    cases hf : s.ladder.is_frozen with
    | true => rw [hf] at hok; simp at hok
    | false =>
      rw [hf] at hok
      simp only [if_false, Bool.false_eq_true] at hok
      rw [hex] at hok
      cases hsc : str_to_scores score with
      | none => simp [hsc] at hok
      | some ab =>
        obtain ⟨a, b⟩ := ab
        simp only [hsc, Option.isNone_some, Bool.false_and, Bool.false_eq_true,
          if_false, if_true, ite_true, ite_false] at hok
        rw [← bool_parity]
        simp at hok
        rw [← hok]
  · intro wp lp wi li pr hwp hlp hwi hli hok
    unfold ChallengeCog.report_challenge at hok
    cases hf : s.ladder.is_frozen with
    | true => rw [hf] at hok; simp at hok
    | false =>
      rw [hf] at hok
      simp only [if_false, Bool.false_eq_true] at hok
      cases hch : s.challenges.find? (fun c => c.is_match w l) with
      | none => simp [hch] at hok
      | some ch =>
        cases hsc : str_to_scores score with
        | none => simp [hch, hsc] at hok
        | some ab =>
          obtain ⟨a, b⟩ := ab
          simp only [hch, hsc, hwp, hlp, hwi, hli] at hok
          simp at hok
          rw [← hok]

/-- Witness for the amended C7 theorem: an edit against a stored upset by
player 1 over player 0 on the reordered ladder [1, 0], and a fresh report of
player 1 beating player 0 on the same ladder. -/
theorem c7_is_upset_computation_witness :
    ((⟨⟨⟨1, [], 3⟩, ⟨0, [], 1⟩, 7, true, ""⟩, none⟩ : PendingReport).result.is_upset =
      (((⟨⟨1, [], 3⟩, ⟨0, [], 0⟩, 0, true, ""⟩ : Result).winner.user == 1) ==
        (⟨⟨1, [], 3⟩, ⟨0, [], 0⟩, 0, true, ""⟩ : Result).is_upset)) ∧
    ((⟨⟨⟨1, [], 3⟩, ⟨0, [], 1⟩, 7, false, ""⟩,
        some ⟨⟨0, 0⟩, ⟨1, 0⟩, 0⟩⟩ : PendingReport).result.is_upset = decide (0 > 1)) :=
  ⟨(c7_is_upset_computation
      ⟨⟨[⟨1, 0⟩, ⟨0, 0⟩], false⟩, [⟨⟨0, 0⟩, ⟨1, 0⟩, 0⟩],
       [⟨⟨1, [], 3⟩, ⟨0, [], 0⟩, 0, true, ""⟩]⟩ 1 0 "3-1" none 7).1
      ⟨⟨1, [], 3⟩, ⟨0, [], 0⟩, 0, true, ""⟩ ⟨⟨⟨1, [], 3⟩, ⟨0, [], 1⟩, 7, true, ""⟩, none⟩
      (by decide) rfl,
   (c7_is_upset_computation
      ⟨⟨[⟨1, 0⟩, ⟨0, 0⟩], false⟩, [⟨⟨0, 0⟩, ⟨1, 0⟩, 0⟩],
       [⟨⟨1, [], 3⟩, ⟨0, [], 0⟩, 0, true, ""⟩]⟩ 1 0 "3-1" none 7).2
      ⟨1, 0⟩ ⟨0, 0⟩ 0 1 ⟨⟨⟨1, [], 3⟩, ⟨0, [], 1⟩, 7, false, ""⟩, some ⟨⟨0, 0⟩, ⟨1, 0⟩, 0⟩⟩
      (by decide) (by decide) (by decide) (by decide) rfl⟩

end Ladderbot
